import Mathlib

/-!
Shallow embedding of `src/app/driver/actions.tsx` (driver delivery actions).

Each server action is modelled as a pure Lean function from an environment
describing the behaviour of its external collaborators (Supabase auth,
Supabase table writes, the Vercel blob store, the notification endpoint)
to a pair of the returned value and a trace of the observable calls the
action performed (store writes, blob puts, backoff sleeps, cache
revalidations, notification dispatches).

A collaborator call in the source either returns a value, returns an
error object (an object with an optional `message` field, of which only
the message is observable in the action's result), or throws.  Thrown
errors are modelled explicitly and routed through the same `try`/`catch`
structure as the source.
-/

namespace DriverActions

/-- The order status argument of `updateStopStatus`: `"delivered" | "failed"`. -/
inductive Status where
  | delivered
  | failed
deriving DecidableEq

/-- Result of `supabase.auth.getUser()`: either the call returns
`{ data: { user }, error }` (with `user` possibly null and `error`
possibly present), or the awaited call throws. -/
inductive AuthResult where
  | ok (user : Option String) (hasError : Bool)
  | raise
deriving DecidableEq

/-- Behaviour of one awaited Supabase write that returns `{ error }`:
`ok` (error is null), `err msg` (an error object whose optional
`message` field is `msg`), or `raise msg` (the await throws an object
whose optional `message` field is `msg`). -/
inductive StoreResult where
  | ok
  | err (msg : Option String)
  | raise (msg : Option String)
deriving DecidableEq

/-- Behaviour of the `pods` insert (`.insert(...).select("id").single()`),
which returns `{ data, error }`: `ok id` (data is `{ id }`, error null),
`okNull` (both data and error null), `err msg`, or `raise msg`. -/
inductive PodInsertResult where
  | ok (id : String)
  | okNull
  | err (msg : Option String)
  | raise (msg : Option String)
deriving DecidableEq

/-- Behaviour of one `put` call against the Vercel blob store: it either
resolves to `{ url }` or throws. -/
inductive PutResult where
  | ok (url : String)
  | raise (msg : Option String)
deriving DecidableEq

/-- Outcome of the fire-and-forget notification fetch in `savePOD`; the
source never awaits it, so the model records it only to show the
returned value does not depend on it. -/
inductive DispatchOutcome where
  | ok
  | errorResponse
  | nonJsonResponse (status : Nat)
  | networkReject
deriving DecidableEq

/-- Observable calls an action performs, in order. -/
inductive Ev where
  | authCheck
  | updateOrder (orderId : String) (status : Status)
  | insertStopEvent (orderId driverId : String) (eventType : Status) (notes : Option String)
  | insertPod (orderId driverId : String) (photoUrl signatureUrl notes : Option String)
  | dispatchEmail (orderId podId : String)
  | revalidate (path : String)
  | sleep (ms : Nat)
  | blobPut (filename : String) (size : Nat) (contentType : String)
  | rpcUpsertPosition (driverId : String) (lat lng : Int) (accuracy : Option Int)
deriving DecidableEq

/-- The `ActionResponse<T>` type of the source, with `T = void`:
`{ success: true; data?: T } | { success: false; error: string; code?: string }`. -/
inductive ActionResponse where
  | success (data : Option String)
  | failure (error : String) (code : Option String)
deriving DecidableEq

/-- The value returned by `uploadToBlob`:
`{ url: string, error: null } | { url: null, error: string }`. -/
structure BlobResult where
  url : Option String
  error : Option String
deriving DecidableEq

/-- `lastError?.message || "Network error"`: the message of the last
recorded error, falling back to `"Network error"` when no error was
recorded, the error had no message, or the message is the empty string
(falsy). -/
def lastErrorMessage (last : Option String) : String :=
  match last with
  | some m => if m = "" then "Network error" else m
  | none => "Network error"

/-- Collaborator behaviour seen by one call of `updateStopStatus`.
`update k` / `audit k` give the behaviour of the `orders` update and the
`stop_events` insert on retry attempt `k` (0-based). -/
structure StopEnv where
  clientRaise : Bool
  auth : AuthResult
  update : Nat → StoreResult
  audit : Nat → StoreResult

/-- The retry loop of `updateStopStatus` (`while retryCount < maxRetries`),
with `fuel = maxRetries - retryCount` and `last` the message of
`lastError`.  On a successful `orders` update the `stop_events` insert is
attempted; a returned `eventError` is only logged, but a *thrown* insert
is caught by the loop's own `catch` and consumes a retry attempt, exactly
as in the source. -/
def updateLoop (env : StopEnv) (userId orderId : String) (status : Status)
    (notes : Option String) : Nat → Nat → Option String → ActionResponse × List Ev
  | 0, _, last =>
      (.failure ("Failed to update order status: " ++ lastErrorMessage last) none, [])
  | fuel + 1, rc, _ =>
      match env.update rc with
      | .ok =>
          match env.audit rc with
          | .raise m =>
              let rc' := rc + 1
              let sleeps := if rc' < 3 then [Ev.sleep (1000 * rc')] else []
              let rest := updateLoop env userId orderId status notes fuel rc' m
              (rest.1, Ev.updateOrder orderId status ::
                Ev.insertStopEvent orderId userId status notes :: (sleeps ++ rest.2))
          | _ =>
              (.success none,
                [Ev.updateOrder orderId status,
                 Ev.insertStopEvent orderId userId status notes,
                 Ev.revalidate "/driver"])
      | .err m | .raise m =>
          let rc' := rc + 1
          let sleeps := if rc' < 3 then [Ev.sleep (1000 * rc')] else []
          let rest := updateLoop env userId orderId status notes fuel rc' m
          (rest.1, Ev.updateOrder orderId status :: (sleeps ++ rest.2))

/-- `updateStopStatus(orderId, status, notes)`. -/
def updateStopStatus (env : StopEnv) (orderId : String) (status : Status)
    (notes : Option String) : ActionResponse × List Ev :=
  if env.clientRaise then
    (.failure "An unexpected error occurred. Please try again." none, [])
  else
    match env.auth with
    | .raise => (.failure "An unexpected error occurred. Please try again." none, [Ev.authCheck])
    | .ok none _ =>
        (.failure "Your session has expired. Please log in again." (some "AUTH_EXPIRED"),
          [Ev.authCheck])
    | .ok (some uid) hasError =>
        if hasError then
          (.failure "Your session has expired. Please log in again." (some "AUTH_EXPIRED"),
            [Ev.authCheck])
        else
          let r := updateLoop env uid orderId status notes 3 0 none
          (r.1, Ev.authCheck :: r.2)

/-- Collaborator behaviour seen by one call of `savePOD`.  `insert k` is
the behaviour of the `pods` insert on attempt `k`; `emailFlag` is the
value of `process.env.NEXT_PUBLIC_ENABLE_POD_EMAIL` (`none` when unset);
`dispatch` is the eventual outcome of the un-awaited notification fetch. -/
structure PodEnv where
  clientRaise : Bool
  auth : AuthResult
  insert : Nat → PodInsertResult
  emailFlag : Option String
  dispatch : DispatchOutcome

/-- `podNotes = recipientName ? (backtick template) : notes`: when
`recipientName` is truthy (present and non-empty) the persisted notes
are the template string with `notes || ""`; otherwise the original
`notes` value. -/
def podNotesOf (notes recipientName : Option String) : Option String :=
  match recipientName with
  | some r => if r = "" then notes else some ("Recipient: " ++ r ++ "\n" ++ notes.getD "")
  | none => notes

/-- The retry loop of `savePOD`.  On `!error && podData` the email fetch
is started (never awaited) when `podData.id` is truthy and the feature
flag equals `"true"`, then the action revalidates and returns success. -/
def podLoop (env : PodEnv) (userId orderId : String)
    (photoUrl signatureUrl podNotes : Option String) :
    Nat → Nat → Option String → ActionResponse × List Ev
  | 0, _, last =>
      (.failure ("Failed to save proof of delivery: " ++ lastErrorMessage last) none, [])
  | fuel + 1, rc, _ =>
      match env.insert rc with
      | .ok id =>
          let dis := if id ≠ "" ∧ env.emailFlag = some "true" then
            [Ev.dispatchEmail orderId id] else []
          (.success none,
            Ev.insertPod orderId userId photoUrl signatureUrl podNotes ::
              (dis ++ [Ev.revalidate "/driver"]))
      | .okNull =>
          let rc' := rc + 1
          let sleeps := if rc' < 3 then [Ev.sleep (1000 * rc')] else []
          let rest := podLoop env userId orderId photoUrl signatureUrl podNotes fuel rc' none
          (rest.1, Ev.insertPod orderId userId photoUrl signatureUrl podNotes :: (sleeps ++ rest.2))
      | .err m | .raise m =>
          let rc' := rc + 1
          let sleeps := if rc' < 3 then [Ev.sleep (1000 * rc')] else []
          let rest := podLoop env userId orderId photoUrl signatureUrl podNotes fuel rc' m
          (rest.1, Ev.insertPod orderId userId photoUrl signatureUrl podNotes :: (sleeps ++ rest.2))

/-- `savePOD(orderId, photoUrl, signatureUrl, notes, recipientName)`. -/
def savePOD (env : PodEnv) (orderId : String)
    (photoUrl signatureUrl notes recipientName : Option String) : ActionResponse × List Ev :=
  if env.clientRaise then
    (.failure "An unexpected error occurred. Please try again." none, [])
  else
    match env.auth with
    | .raise => (.failure "An unexpected error occurred. Please try again." none, [Ev.authCheck])
    | .ok none _ =>
        (.failure "Your session has expired. Please log in again." (some "AUTH_EXPIRED"),
          [Ev.authCheck])
    | .ok (some uid) hasError =>
        if hasError then
          (.failure "Your session has expired. Please log in again." (some "AUTH_EXPIRED"),
            [Ev.authCheck])
        else
          let r := podLoop env uid orderId photoUrl signatureUrl
            (podNotesOf notes recipientName) 3 0 none
          (r.1, Ev.authCheck :: r.2)

/-- Collaborator behaviour seen by one call of `uploadToBlob`.
`fetchDataUrl` models `fetch(dataUrl)` followed by `.blob()` on the
`data:` branch (`none` when the fetch rejects or the URL cannot be
decoded); `put k` is the behaviour of the blob `put` on attempt `k`. -/
structure BlobEnv where
  fetchDataUrl : String → Option (List Nat)
  put : Nat → PutResult

/-- The six-bit value of one base64 alphabet character. -/
def b64Val (c : Char) : Option Nat :=
  if 'A' ≤ c ∧ c ≤ 'Z' then some (c.toNat - 65)
  else if 'a' ≤ c ∧ c ≤ 'z' then some (c.toNat - 97 + 26)
  else if '0' ≤ c ∧ c ≤ '9' then some (c.toNat - 48 + 52)
  else if c = '+' then some 62
  else if c = '/' then some 63
  else none

/-- Decode a cleaned base64 character list (groups of 4, with a final
group of 2 or 3 allowed) into bytes. -/
def b64DecodeChunks : List Char → Option (List Nat)
  | [] => some []
  | [_] => none
  | [a, b] => do
      let va ← b64Val a
      let vb ← b64Val b
      pure [(va * 4 + vb / 16) % 256]
  | [a, b, c] => do
      let va ← b64Val a
      let vb ← b64Val b
      let vc ← b64Val c
      pure [(va * 4 + vb / 16) % 256, (vb % 16 * 16 + vc / 4) % 256]
  | a :: b :: c :: d :: rest => do
      let va ← b64Val a
      let vb ← b64Val b
      let vc ← b64Val c
      let vd ← b64Val d
      let tail ← b64DecodeChunks rest
      pure ((va * 4 + vb / 16) % 256 :: (vb % 16 * 16 + vc / 4) % 256 ::
        (vc % 4 * 64 + vd) % 256 :: tail)

/-- Strip up to two trailing `=` padding characters. -/
def stripPad (cs : List Char) : List Char :=
  let cs := if cs.getLast? = some '=' then cs.dropLast else cs
  if cs.getLast? = some '=' then cs.dropLast else cs

/-- `atob`, per the WHATWG forgiving-base64 algorithm: remove ASCII
whitespace, strip up to two trailing `=` when the length is a multiple
of four, fail when the remaining length is ≡ 1 (mod 4) or any character
is outside the alphabet, otherwise decode; returns `none` when `atob`
throws. -/
def jsAtob (s : String) : Option (List Nat) :=
  let cs := s.data.filter fun c =>
    ¬ (c = ' ' ∨ c = '\t' ∨ c = '\n' ∨ c = '\x0c' ∨ c = '\r')
  let cs := if cs.length % 4 = 0 then stripPad cs else cs
  if cs.length % 4 = 1 then none
  else if cs.any fun c => (b64Val c).isNone then none
  else b64DecodeChunks cs

/-- `base64Data.split(',')[1] || base64Data`: the second comma-separated
segment when it exists and is non-empty (truthy), else the whole input. -/
def splitArg (s : String) : String :=
  match s.data.splitOn ',' with
  | _ :: second :: _ => if second = [] then s else ⟨second⟩
  | _ => s

/-- The retry loop of `uploadToBlob` around the blob `put` call; the
`put` may only throw, and the exhaustion message is fixed (the recorded
last error is only logged). -/
def putLoop (env : BlobEnv) (filename contentType : String) (size : Nat) :
    Nat → Nat → Option String → BlobResult × List Ev
  | 0, _, _ =>
      (⟨none, some "Failed to upload file after multiple attempts"⟩, [])
  | fuel + 1, rc, _ =>
      match env.put rc with
      | .ok url => (⟨some url, none⟩, [Ev.blobPut filename size contentType])
      | .raise m =>
          let rc' := rc + 1
          let sleeps := if rc' < 3 then [Ev.sleep (1000 * rc')] else []
          let rest := putLoop env filename contentType size fuel rc' m
          (rest.1, Ev.blobPut filename size contentType :: (sleeps ++ rest.2))

/-- `uploadToBlob(base64Data, filename, contentType)`.  A throwing
decode (`fetch` of a bad data URL, or `atob` on invalid base64) reaches
the outer `catch`, which returns `{ url: null, error: "Failed to upload
file" }` before any `put` attempt. -/
def uploadToBlob (env : BlobEnv) (base64Data filename contentType : String) :
    BlobResult × List Ev :=
  if base64Data.startsWith "data:" then
    match env.fetchDataUrl base64Data with
    | none => (⟨none, some "Failed to upload file"⟩, [])
    | some bytes => putLoop env filename contentType bytes.length 3 0 none
  else
    match jsAtob (splitArg base64Data) with
    | none => (⟨none, some "Failed to upload file"⟩, [])
    | some bytes => putLoop env filename contentType bytes.length 3 0 none

/-- Collaborator behaviour seen by one call of `updateDriverPosition`;
the `upsert_driver_position` rpc is called at most once. -/
structure PosEnv where
  clientRaise : Bool
  auth : AuthResult
  rpc : StoreResult

/-- `accuracy || null`: the JavaScript or-with-null coercion on the
optional numeric accuracy, sending `0` (falsy) to null. -/
def jsOrNullInt (a : Option Int) : Option Int :=
  match a with
  | some v => if v = 0 then none else some v
  | none => none

/-- `updateDriverPosition(lat, lng, accuracy)`. -/
def updateDriverPosition (env : PosEnv) (lat lng : Int) (accuracy : Option Int) :
    ActionResponse × List Ev :=
  if env.clientRaise then
    (.failure "An unexpected error occurred" none, [])
  else
    match env.auth with
    | .raise => (.failure "An unexpected error occurred" none, [Ev.authCheck])
    | .ok none _ =>
        (.failure "Authentication required" (some "AUTH_EXPIRED"), [Ev.authCheck])
    | .ok (some uid) hasError =>
        if hasError then
          (.failure "Authentication required" (some "AUTH_EXPIRED"), [Ev.authCheck])
        else
          match env.rpc with
          | .raise _ =>
              (.failure "An unexpected error occurred" none,
                [Ev.authCheck, Ev.rpcUpsertPosition uid lat lng (jsOrNullInt accuracy)])
          | .err _ =>
              (.failure "Failed to update position" none,
                [Ev.authCheck, Ev.rpcUpsertPosition uid lat lng (jsOrNullInt accuracy)])
          | .ok =>
              (.success none,
                [Ev.authCheck, Ev.rpcUpsertPosition uid lat lng (jsOrNullInt accuracy)])

/-- Event classifiers over the trace. -/
def isAuthCheck : Ev → Bool
  | .authCheck => true
  | _ => false

/-- True for the `orders` status update call. -/
def isUpdateOrder : Ev → Bool
  | .updateOrder _ _ => true
  | _ => false

/-- True for the `stop_events` audit insert call. -/
def isStopEventInsert : Ev → Bool
  | .insertStopEvent _ _ _ _ => true
  | _ => false

/-- True for the `pods` insert call. -/
def isPodInsert : Ev → Bool
  | .insertPod _ _ _ _ _ => true
  | _ => false

/-- True for the fire-and-forget notification dispatch. -/
def isDispatch : Ev → Bool
  | .dispatchEmail _ _ => true
  | _ => false

/-- True for the blob `put` call. -/
def isBlobPut : Ev → Bool
  | .blobPut _ _ _ => true
  | _ => false

/-- True for the `upsert_driver_position` rpc call. -/
def isRpcUpsert : Ev → Bool
  | .rpcUpsertPosition _ _ _ _ => true
  | _ => false

/-- True for backoff sleeps. -/
def isSleep : Ev → Bool
  | .sleep _ => true
  | _ => false

/-- True for every event that attempts a write against the durable
store or the blob store (not auth lookups, sleeps, cache invalidation,
or the notification dispatch). -/
def isWrite : Ev → Bool
  | .updateOrder _ _ => true
  | .insertStopEvent _ _ _ _ => true
  | .insertPod _ _ _ _ _ => true
  | .blobPut _ _ _ => true
  | .rpcUpsertPosition _ _ _ _ => true
  | _ => false

/-- Number of events in a trace satisfying a classifier. -/
def countEv (p : Ev → Bool) (tr : List Ev) : Nat :=
  (tr.filter p).length

/-- The durations of the backoff sleeps in a trace, in order. -/
def sleepDurations (tr : List Ev) : List Nat :=
  tr.filterMap fun e => match e with
    | .sleep n => some n
    | _ => none

/-- The notes field of each `pods` insert in a trace, in order. -/
def podInsertNotes (tr : List Ev) : List (Option String) :=
  tr.filterMap fun e => match e with
    | .insertPod _ _ _ _ notes => some notes
    | _ => none

/-- The accuracy argument of each position-upsert rpc in a trace. -/
def rpcAccuracies (tr : List Ev) : List (Option Int) :=
  tr.filterMap fun e => match e with
    | .rpcUpsertPosition _ _ _ acc => some acc
    | _ => none

/-- The auth lookup reports an error or no user, so the action takes the
`AUTH_EXPIRED` branch. -/
def authFails : AuthResult → Prop
  | .ok user hasError => hasError = true ∨ user = none
  | .raise => False

/-- The auth lookup succeeds with user id `uid` and no error. -/
def authOk (a : AuthResult) (uid : String) : Prop :=
  a = .ok (some uid) false

/-- A JavaScript object with the fields that occur in the values the
four actions return, each field either absent (`none`) or present; a
present `error` or `url` field may itself hold null. -/
structure JSObj where
  success : Option Bool
  data : Option String
  error : Option (Option String)
  code : Option String
  url : Option (Option String)
deriving DecidableEq

/-- The `MutationOutcome` shape of the spec:
`{ success: true, data? } | { success: false, error: string, code? }`,
with no extra fields. -/
def isMutationOutcome (o : JSObj) : Bool :=
  match o.success, o.data, o.error, o.code, o.url with
  | some true, _, none, none, none => true
  | some false, none, some (some _), _, none => true
  | _, _, _, _, _ => false

/-- The object literal an `ActionResponse` denotes. -/
def actionToJS : ActionResponse → JSObj
  | .success d => ⟨some true, d, none, none, none⟩
  | .failure e c => ⟨some false, none, some (some e), c, none⟩

/-- The object literal a `uploadToBlob` result denotes (both branches
carry `url` and `error` fields and no `success` field). -/
def blobToJS (b : BlobResult) : JSObj :=
  ⟨none, none, some b.error, none, some b.url⟩

/-- Attempt `k` of `updateStopStatus` fails and records `m`: the update
returns an error object, the update throws, or the update succeeds but
the audit insert throws inside the same `try`. -/
def stopContAt (env : StopEnv) (k : Nat) (m : Option String) : Prop :=
  env.update k = .err m ∨ env.update k = .raise m ∨
    (env.update k = .ok ∧ env.audit k = .raise m)

/-- Attempt `k` of `savePOD` fails and records `m`: the insert returns
an error object, throws, or returns neither data nor error (recording
the null error, which has no message). -/
def podContAt (env : PodEnv) (k : Nat) (m : Option String) : Prop :=
  env.insert k = .err m ∨ env.insert k = .raise m ∨
    (env.insert k = .okNull ∧ m = none)

/-- Environment for a run of `updateStopStatus` whose `orders` update
fails on every attempt with a message-bearing error. -/
def envStopFailAll : StopEnv :=
  ⟨false, .ok (some "driver-1") false, fun _ => .err (some "boom"), fun _ => .ok⟩

/-- Environment where the `orders` update succeeds at once but the
`stop_events` audit insert returns an error. -/
def envStopOk : StopEnv :=
  ⟨false, .ok (some "driver-1") false, fun _ => .ok, fun _ => .err (some "audit down")⟩

/-- Environment where the auth lookup reports no error but also no
user. -/
def envStopNoUser : StopEnv :=
  ⟨false, .ok none false, fun _ => .ok, fun _ => .ok⟩

/-- Environment where `createServerClient` itself throws. -/
def envStopClientRaise : StopEnv :=
  ⟨true, .raise, fun _ => .ok, fun _ => .ok⟩

/-- Environment where the auth lookup throws. -/
def envStopAuthRaise : StopEnv :=
  ⟨false, .raise, fun _ => .ok, fun _ => .ok⟩

/-- Environment for a run of `savePOD` whose insert succeeds at once
producing id `"pod-1"`, with the email feature flag enabled. -/
def envPodOk : PodEnv :=
  ⟨false, .ok (some "driver-1") false, fun _ => .ok "pod-1", some "true", .networkReject⟩

/-- Environment for a run of `savePOD` whose insert fails on every
attempt. -/
def envPodFailAll : PodEnv :=
  ⟨false, .ok (some "driver-1") false, fun _ => .err (some "down"), none, .ok⟩

/-- Environment for `savePOD` where the auth lookup throws. -/
def envPodAuthRaise : PodEnv :=
  ⟨false, .raise, fun _ => .ok "pod-1", none, .ok⟩

/-- Blob environment whose `put` succeeds immediately. -/
def envBlobOk : BlobEnv :=
  ⟨fun _ => none, fun _ => .ok "https://blob.example/x"⟩

/-- Position environment whose rpc returns an error object. -/
def envPosErr : PosEnv :=
  ⟨false, .ok (some "driver-1") false, .err (some "db down")⟩

/-- Position environment whose rpc succeeds. -/
def envPosOk : PosEnv :=
  ⟨false, .ok (some "driver-1") false, .ok⟩

attribute [simp] isAuthCheck isUpdateOrder isStopEventInsert isPodInsert isDispatch isBlobPut
  isRpcUpsert isSleep isWrite

@[simp] theorem countEv_nil (p : Ev → Bool) : countEv p [] = 0 := rfl

@[simp] theorem countEv_cons (p : Ev → Bool) (e : Ev) (tr : List Ev) :
    countEv p (e :: tr) = (if p e then 1 else 0) + countEv p tr := by
  simp only [countEv, List.filter_cons]
  split <;> simp [Nat.add_comm]

@[simp] theorem countEv_append (p : Ev → Bool) (l₁ l₂ : List Ev) :
    countEv p (l₁ ++ l₂) = countEv p l₁ + countEv p l₂ := by
  simp [countEv, List.filter_append]

@[simp] theorem sleepDurations_nil : sleepDurations [] = [] := rfl

@[simp] theorem sleepDurations_cons (e : Ev) (tr : List Ev) :
    sleepDurations (e :: tr) =
      (match e with | .sleep n => [n] | _ => []) ++ sleepDurations tr := by
  cases e <;> simp [sleepDurations, List.filterMap_cons]

@[simp] theorem sleepDurations_append (l₁ l₂ : List Ev) :
    sleepDurations (l₁ ++ l₂) = sleepDurations l₁ ++ sleepDurations l₂ := by
  simp [sleepDurations, List.filterMap_append]

theorem sleepDurations_length (tr : List Ev) :
    (sleepDurations tr).length = countEv isSleep tr := by
  induction tr with
  | nil => rfl
  | cons e tr ih => cases e <;> simp [ih] <;> omega

@[simp] theorem podInsertNotes_nil : podInsertNotes [] = [] := rfl

@[simp] theorem podInsertNotes_cons (e : Ev) (tr : List Ev) :
    podInsertNotes (e :: tr) =
      (match e with | .insertPod _ _ _ _ nt => [nt] | _ => []) ++ podInsertNotes tr := by
  cases e <;> simp [podInsertNotes, List.filterMap_cons]

@[simp] theorem podInsertNotes_append (l₁ l₂ : List Ev) :
    podInsertNotes (l₁ ++ l₂) = podInsertNotes l₁ ++ podInsertNotes l₂ := by
  simp [podInsertNotes, List.filterMap_append]

theorem updateLoop_zero (env : StopEnv) (u o : String) (s : Status) (n last : Option String) :
    updateLoop env u o s n 0 0 last =
      (.failure ("Failed to update order status: " ++ lastErrorMessage last) none, []) := rfl

theorem updateLoop_stop (env : StopEnv) (u o : String) (s : Status) (n : Option String)
    (fuel rc : Nat) (last : Option String)
    (h : env.update rc = .ok) (ha : ∀ m, env.audit rc ≠ .raise m) :
    updateLoop env u o s n (fuel + 1) rc last =
      (.success none,
        [Ev.updateOrder o s, Ev.insertStopEvent o u s n, Ev.revalidate "/driver"]) := by
  rcases hc : env.audit rc with _ | m | m
  · simp [updateLoop, h, hc]
  · simp [updateLoop, h, hc]
  · exact absurd hc (ha m)

theorem updateLoop_cont (env : StopEnv) (u o : String) (s : Status) (n : Option String)
    (fuel rc : Nat) (last m : Option String) (h : stopContAt env rc m) :
    updateLoop env u o s n (fuel + 1) rc last =
      ((updateLoop env u o s n fuel (rc + 1) m).1,
        Ev.updateOrder o s ::
          ((if env.update rc = .ok then [Ev.insertStopEvent o u s n] else []) ++
            ((if rc + 1 < 3 then [Ev.sleep (1000 * (rc + 1))] else []) ++
              (updateLoop env u o s n fuel (rc + 1) m).2))) := by
  rcases h with h | h | ⟨h, ha⟩ <;> simp [updateLoop, h]
  simp [ha]

theorem podLoop_zero (env : PodEnv) (u o : String) (pu sg pn last : Option String) :
    podLoop env u o pu sg pn 0 0 last =
      (.failure ("Failed to save proof of delivery: " ++ lastErrorMessage last) none, []) := rfl

theorem podLoop_stop (env : PodEnv) (u o : String) (pu sg pn : Option String)
    (fuel rc : Nat) (last : Option String) (id : String)
    (h : env.insert rc = .ok id) :
    podLoop env u o pu sg pn (fuel + 1) rc last =
      (.success none,
        Ev.insertPod o u pu sg pn ::
          ((if id ≠ "" ∧ env.emailFlag = some "true" then [Ev.dispatchEmail o id] else []) ++
            [Ev.revalidate "/driver"])) := by
  simp [podLoop, h]

theorem podLoop_cont (env : PodEnv) (u o : String) (pu sg pn : Option String)
    (fuel rc : Nat) (last m : Option String) (h : podContAt env rc m) :
    podLoop env u o pu sg pn (fuel + 1) rc last =
      ((podLoop env u o pu sg pn fuel (rc + 1) m).1,
        Ev.insertPod o u pu sg pn ::
          ((if rc + 1 < 3 then [Ev.sleep (1000 * (rc + 1))] else []) ++
            (podLoop env u o pu sg pn fuel (rc + 1) m).2)) := by
  rcases h with h | h | ⟨h, hm⟩ <;> simp [podLoop, h]
  subst hm; exact ⟨rfl, rfl⟩

theorem putLoop_zero (env : BlobEnv) (f ct : String) (size : Nat) (last : Option String) :
    putLoop env f ct size 0 0 last =
      (⟨none, some "Failed to upload file after multiple attempts"⟩, []) := rfl

theorem putLoop_stop (env : BlobEnv) (f ct : String) (size : Nat)
    (fuel rc : Nat) (last : Option String) (url : String)
    (h : env.put rc = .ok url) :
    putLoop env f ct size (fuel + 1) rc last =
      (⟨some url, none⟩, [Ev.blobPut f size ct]) := by
  simp [putLoop, h]

theorem putLoop_cont (env : BlobEnv) (f ct : String) (size : Nat)
    (fuel rc : Nat) (last m : Option String) (h : env.put rc = .raise m) :
    putLoop env f ct size (fuel + 1) rc last =
      ((putLoop env f ct size fuel (rc + 1) m).1,
        Ev.blobPut f size ct ::
          ((if rc + 1 < 3 then [Ev.sleep (1000 * (rc + 1))] else []) ++
            (putLoop env f ct size fuel (rc + 1) m).2)) := by
  simp [putLoop, h]

theorem stop_stop_or_cont (env : StopEnv) (k : Nat) :
    (env.update k = .ok ∧ ∀ m, env.audit k ≠ .raise m) ∨ ∃ m, stopContAt env k m := by
  rcases h : env.update k with _ | m | m
  · rcases ha : env.audit k with _ | mm | mm
    · exact .inl ⟨rfl, by simp [ha]⟩
    · exact .inl ⟨rfl, by simp [ha]⟩
    · exact .inr ⟨mm, .inr (.inr ⟨h, ha⟩)⟩
  · exact .inr ⟨m, .inl h⟩
  · exact .inr ⟨m, .inr (.inl h)⟩

theorem pod_stop_or_cont (env : PodEnv) (k : Nat) :
    (∃ id, env.insert k = .ok id) ∨ ∃ m, podContAt env k m := by
  rcases h : env.insert k with id | _ | m | m
  · exact .inl ⟨id, rfl⟩
  · exact .inr ⟨none, .inr (.inr ⟨h, rfl⟩)⟩
  · exact .inr ⟨m, .inl h⟩
  · exact .inr ⟨m, .inr (.inl h)⟩

theorem updateLoop_authCount (env : StopEnv) (u o : String) (s : Status) (n : Option String) :
    ∀ fuel rc last, countEv isAuthCheck (updateLoop env u o s n fuel rc last).2 = 0 := by
  intro fuel
  induction fuel with
  | zero => intro rc last; simp [updateLoop]
  | succ f ih =>
      intro rc last
      rcases h0 : env.update rc with _ | m | m
      · rcases ha : env.audit rc with _ | m | m
        · simp [updateLoop, h0, ha]
        · simp [updateLoop, h0, ha]
        · by_cases hlt : rc + 1 < 3 <;> simp [updateLoop, h0, ha, hlt, ih]
      · by_cases hlt : rc + 1 < 3 <;> simp [updateLoop, h0, hlt, ih]
      · by_cases hlt : rc + 1 < 3 <;> simp [updateLoop, h0, hlt, ih]

theorem updateLoop_updateCount_le (env : StopEnv) (u o : String) (s : Status) (n : Option String) :
    ∀ fuel rc last, countEv isUpdateOrder (updateLoop env u o s n fuel rc last).2 ≤ fuel := by
  intro fuel
  induction fuel with
  | zero => intro rc last; simp [updateLoop]
  | succ f ih =>
      intro rc last
      rcases h0 : env.update rc with _ | m | m
      · rcases ha : env.audit rc with _ | m | m
        · simp [updateLoop, h0, ha]
        · simp [updateLoop, h0, ha]
        · have hi := ih (rc + 1) m
          by_cases hlt : rc + 1 < 3 <;>
            simp [updateLoop, h0, ha, hlt] <;> omega
      · have hi := ih (rc + 1) m
        by_cases hlt : rc + 1 < 3 <;>
          simp [updateLoop, h0, hlt] <;> omega
      · have hi := ih (rc + 1) m
        by_cases hlt : rc + 1 < 3 <;>
          simp [updateLoop, h0, hlt] <;> omega

theorem updateLoop_sleeps (env : StopEnv) (u o : String) (s : Status) (n : Option String) :
    ∀ fuel rc last,
      sleepDurations (updateLoop env u o s n fuel rc last).2 = [] ∨
      (rc + 1 < 3 ∧ sleepDurations (updateLoop env u o s n fuel rc last).2 = [1000 * (rc + 1)]) ∨
      (rc + 2 < 3 ∧ sleepDurations (updateLoop env u o s n fuel rc last).2 =
        [1000 * (rc + 1), 1000 * (rc + 2)]) := by
  intro fuel
  induction fuel with
  | zero => intro rc last; simp [updateLoop]
  | succ f ih =>
      intro rc last
      have step : ∀ m : Option String,
          sleepDurations ((if rc + 1 < 3 then [Ev.sleep (1000 * (rc + 1))] else []) ++
            (updateLoop env u o s n f (rc + 1) m).2) = [] ∨
          (rc + 1 < 3 ∧ sleepDurations ((if rc + 1 < 3 then [Ev.sleep (1000 * (rc + 1))] else []) ++
            (updateLoop env u o s n f (rc + 1) m).2) = [1000 * (rc + 1)]) ∨
          (rc + 2 < 3 ∧ sleepDurations ((if rc + 1 < 3 then [Ev.sleep (1000 * (rc + 1))] else []) ++
            (updateLoop env u o s n f (rc + 1) m).2) =
            [1000 * (rc + 1), 1000 * (rc + 2)]) := by
        intro m
        rcases ih (rc + 1) m with h | ⟨hlt, h⟩ | ⟨hlt, h⟩
        · by_cases hlt : rc + 1 < 3 <;> simp [hlt, h]
        · have h1 : rc + 1 < 3 := by omega
          simp [h1, h]
          omega
        · exact absurd hlt (by omega)
      rcases h0 : env.update rc with _ | m | m
      · rcases ha : env.audit rc with _ | m | m
        · simp [updateLoop, h0, ha]
        · simp [updateLoop, h0, ha]
        · have := step m
          simpa [updateLoop, h0, ha] using this
      · have := step m
        simpa [updateLoop, h0] using this
      · have := step m
        simpa [updateLoop, h0] using this

theorem podLoop_authCount (env : PodEnv) (u o : String) (pu sg pn : Option String) :
    ∀ fuel rc last, countEv isAuthCheck (podLoop env u o pu sg pn fuel rc last).2 = 0 := by
  intro fuel
  induction fuel with
  | zero => intro rc last; simp [podLoop]
  | succ f ih =>
      intro rc last
      rcases h0 : env.insert rc with id | _ | m | m
      · by_cases hd : id ≠ "" ∧ env.emailFlag = some "true" <;> simp [podLoop, h0, hd]
      · by_cases hlt : rc + 1 < 3 <;> simp [podLoop, h0, hlt, ih]
      · by_cases hlt : rc + 1 < 3 <;> simp [podLoop, h0, hlt, ih]
      · by_cases hlt : rc + 1 < 3 <;> simp [podLoop, h0, hlt, ih]

theorem podLoop_insertCount_le (env : PodEnv) (u o : String) (pu sg pn : Option String) :
    ∀ fuel rc last, countEv isPodInsert (podLoop env u o pu sg pn fuel rc last).2 ≤ fuel := by
  intro fuel
  induction fuel with
  | zero => intro rc last; simp [podLoop]
  | succ f ih =>
      intro rc last
      rcases h0 : env.insert rc with id | _ | m | m
      · by_cases hd : id ≠ "" ∧ env.emailFlag = some "true" <;> simp [podLoop, h0, hd]
      · have hi := ih (rc + 1) none
        by_cases hlt : rc + 1 < 3 <;> simp [podLoop, h0, hlt] <;> omega
      · have hi := ih (rc + 1) m
        by_cases hlt : rc + 1 < 3 <;> simp [podLoop, h0, hlt] <;> omega
      · have hi := ih (rc + 1) m
        by_cases hlt : rc + 1 < 3 <;> simp [podLoop, h0, hlt] <;> omega

theorem podLoop_sleeps (env : PodEnv) (u o : String) (pu sg pn : Option String) :
    ∀ fuel rc last,
      sleepDurations (podLoop env u o pu sg pn fuel rc last).2 = [] ∨
      (rc + 1 < 3 ∧ sleepDurations (podLoop env u o pu sg pn fuel rc last).2 = [1000 * (rc + 1)]) ∨
      (rc + 2 < 3 ∧ sleepDurations (podLoop env u o pu sg pn fuel rc last).2 =
        [1000 * (rc + 1), 1000 * (rc + 2)]) := by
  intro fuel
  induction fuel with
  | zero => intro rc last; simp [podLoop]
  | succ f ih =>
      intro rc last
      have step : ∀ m : Option String,
          sleepDurations ((if rc + 1 < 3 then [Ev.sleep (1000 * (rc + 1))] else []) ++
            (podLoop env u o pu sg pn f (rc + 1) m).2) = [] ∨
          (rc + 1 < 3 ∧ sleepDurations ((if rc + 1 < 3 then [Ev.sleep (1000 * (rc + 1))] else []) ++
            (podLoop env u o pu sg pn f (rc + 1) m).2) = [1000 * (rc + 1)]) ∨
          (rc + 2 < 3 ∧ sleepDurations ((if rc + 1 < 3 then [Ev.sleep (1000 * (rc + 1))] else []) ++
            (podLoop env u o pu sg pn f (rc + 1) m).2) =
            [1000 * (rc + 1), 1000 * (rc + 2)]) := by
        intro m
        rcases ih (rc + 1) m with h | ⟨hlt, h⟩ | ⟨hlt, h⟩
        · by_cases hlt : rc + 1 < 3 <;> simp [hlt, h]
        · have h1 : rc + 1 < 3 := by omega
          simp [h1, h]
          omega
        · exact absurd hlt (by omega)
      rcases h0 : env.insert rc with id | _ | m | m
      · by_cases hd : id ≠ "" ∧ env.emailFlag = some "true" <;> simp [podLoop, h0, hd]
      · have := step none
        simpa [podLoop, h0] using this
      · have := step m
        simpa [podLoop, h0] using this
      · have := step m
        simpa [podLoop, h0] using this

theorem podLoop_notes (env : PodEnv) (u o : String) (pu sg pn : Option String) :
    ∀ fuel rc last x, x ∈ podInsertNotes (podLoop env u o pu sg pn fuel rc last).2 → x = pn := by
  intro fuel
  induction fuel with
  | zero => intro rc last x; simp [podLoop]
  | succ f ih =>
      intro rc last x
      rcases h0 : env.insert rc with id | _ | m | m
      · by_cases hd : id ≠ "" ∧ env.emailFlag = some "true" <;>
          simp [podLoop, h0, hd]
      · by_cases hlt : rc + 1 < 3 <;>
          simp [podLoop, h0, hlt] <;>
          exact fun h => h.elim (fun h => h) (ih (rc + 1) none x)
      · by_cases hlt : rc + 1 < 3 <;>
          simp [podLoop, h0, hlt] <;>
          exact fun h => h.elim (fun h => h) (ih (rc + 1) m x)
      · by_cases hlt : rc + 1 < 3 <;>
          simp [podLoop, h0, hlt] <;>
          exact fun h => h.elim (fun h => h) (ih (rc + 1) m x)

theorem podLoop_dispatch_eq (c : Bool) (a : AuthResult) (i : Nat → PodInsertResult)
    (f : Option String) (d d' : DispatchOutcome) (u o : String) (pu sg pn : Option String) :
    ∀ fuel rc last,
      podLoop ⟨c, a, i, f, d⟩ u o pu sg pn fuel rc last =
        podLoop ⟨c, a, i, f, d'⟩ u o pu sg pn fuel rc last := by
  intro fuel
  induction fuel with
  | zero => intro rc last; rfl
  | succ fl ih =>
      intro rc last
      rcases h0 : i rc with id | _ | m | m <;>
        simp [podLoop, h0, ih]

theorem podLoop_flag_eq (c : Bool) (a : AuthResult) (i : Nat → PodInsertResult)
    (f f' : Option String) (d : DispatchOutcome) (u o : String) (pu sg pn : Option String) :
    ∀ fuel rc last,
      (podLoop ⟨c, a, i, f, d⟩ u o pu sg pn fuel rc last).1 =
        (podLoop ⟨c, a, i, f', d⟩ u o pu sg pn fuel rc last).1 ∧
      (podLoop ⟨c, a, i, f, d⟩ u o pu sg pn fuel rc last).2.filter (fun e => !isDispatch e) =
        (podLoop ⟨c, a, i, f', d⟩ u o pu sg pn fuel rc last).2.filter (fun e => !isDispatch e) := by
  intro fuel
  induction fuel with
  | zero => intro rc last; exact ⟨rfl, rfl⟩
  | succ fl ih =>
      intro rc last
      rcases h0 : i rc with id | _ | m | m
      · refine ⟨by simp [podLoop, h0], ?_⟩
        by_cases hd : id ≠ "" ∧ f = some "true" <;>
          by_cases hd' : id ≠ "" ∧ f' = some "true" <;>
            simp [podLoop, h0, hd, hd', List.filter_append]
      · have hi := ih (rc + 1) none
        by_cases hlt : rc + 1 < 3 <;>
          simpa [podLoop, h0, hlt, List.filter_append] using hi
      · have hi := ih (rc + 1) m
        by_cases hlt : rc + 1 < 3 <;>
          simpa [podLoop, h0, hlt, List.filter_append] using hi
      · have hi := ih (rc + 1) m
        by_cases hlt : rc + 1 < 3 <;>
          simpa [podLoop, h0, hlt, List.filter_append] using hi

theorem putLoop_authCount (env : BlobEnv) (f ct : String) (size : Nat) :
    ∀ fuel rc last, countEv isAuthCheck (putLoop env f ct size fuel rc last).2 = 0 := by
  intro fuel
  induction fuel with
  | zero => intro rc last; simp [putLoop]
  | succ fl ih =>
      intro rc last
      rcases h0 : env.put rc with url | m
      · simp [putLoop, h0]
      · by_cases hlt : rc + 1 < 3 <;> simp [putLoop, h0, hlt, ih]

theorem updateLoop_failure (env : StopEnv) (u o : String) (s : Status) (n last : Option String)
    (e : String) (c : Option String)
    (hf : (updateLoop env u o s n 3 0 last).1 = .failure e c) :
    countEv isUpdateOrder (updateLoop env u o s n 3 0 last).2 = 3 ∧
    sleepDurations (updateLoop env u o s n 3 0 last).2 = [1000, 2000] := by
  rcases stop_stop_or_cont env 0 with ⟨h0, ha0⟩ | ⟨m0, hc0⟩
  · rw [updateLoop_stop env u o s n 2 0 last h0 ha0] at hf
    simp at hf
  · rw [updateLoop_cont env u o s n 2 0 last m0 hc0] at hf ⊢
    rcases stop_stop_or_cont env 1 with ⟨h1, ha1⟩ | ⟨m1, hc1⟩
    · rw [updateLoop_stop env u o s n 1 1 m0 h1 ha1] at hf
      simp at hf
    · rw [updateLoop_cont env u o s n 1 1 m0 m1 hc1] at hf ⊢
      rcases stop_stop_or_cont env 2 with ⟨h2, ha2⟩ | ⟨m2, hc2⟩
      · rw [updateLoop_stop env u o s n 0 2 m1 h2 ha2] at hf
        simp at hf
      · rw [updateLoop_cont env u o s n 0 2 m1 m2 hc2]
        simp [updateLoop, apply_ite (countEv isUpdateOrder), apply_ite sleepDurations]

theorem updateLoop_success (env : StopEnv) (u o : String) (s : Status) (n last : Option String)
    (k : Nat) (hk : k < 3) (hok : env.update k = .ok)
    (hmin : ∀ j, j < k → env.update j ≠ .ok) (ha : ∀ m, env.audit k ≠ .raise m) :
    (updateLoop env u o s n 3 0 last).1 = .success none ∧
    countEv isStopEventInsert (updateLoop env u o s n 3 0 last).2 = 1 ∧
    countEv isUpdateOrder (updateLoop env u o s n 3 0 last).2 = k + 1 := by
  have contOf : ∀ j, env.update j ≠ .ok → ∃ m, stopContAt env j m := by
    intro j hj
    rcases h : env.update j with _ | m | m
    · exact absurd h hj
    · exact ⟨m, .inl h⟩
    · exact ⟨m, .inr (.inl h)⟩
  interval_cases k
  · rw [updateLoop_stop env u o s n 2 0 last hok ha]
    simp
  · obtain ⟨m0, hc0⟩ := contOf 0 (hmin 0 (by omega))
    have hno : ¬ env.update 0 = .ok := hmin 0 (by omega)
    rw [updateLoop_cont env u o s n 2 0 last m0 hc0,
      updateLoop_stop env u o s n 1 1 m0 hok ha]
    simp [hno]
  · obtain ⟨m0, hc0⟩ := contOf 0 (hmin 0 (by omega))
    obtain ⟨m1, hc1⟩ := contOf 1 (hmin 1 (by omega))
    have hno0 : ¬ env.update 0 = .ok := hmin 0 (by omega)
    have hno1 : ¬ env.update 1 = .ok := hmin 1 (by omega)
    rw [updateLoop_cont env u o s n 2 0 last m0 hc0,
      updateLoop_cont env u o s n 1 1 m0 m1 hc1,
      updateLoop_stop env u o s n 0 2 m1 hok ha]
    simp [hno0, hno1]

theorem podLoop_failure (env : PodEnv) (u o : String) (pu sg pn last : Option String)
    (e : String) (c : Option String)
    (hf : (podLoop env u o pu sg pn 3 0 last).1 = .failure e c) :
    countEv isPodInsert (podLoop env u o pu sg pn 3 0 last).2 = 3 ∧
    sleepDurations (podLoop env u o pu sg pn 3 0 last).2 = [1000, 2000] := by
  rcases pod_stop_or_cont env 0 with ⟨id0, h0⟩ | ⟨m0, hc0⟩
  · rw [podLoop_stop env u o pu sg pn 2 0 last id0 h0] at hf
    simp at hf
  · rw [podLoop_cont env u o pu sg pn 2 0 last m0 hc0] at hf ⊢
    rcases pod_stop_or_cont env 1 with ⟨id1, h1⟩ | ⟨m1, hc1⟩
    · rw [podLoop_stop env u o pu sg pn 1 1 m0 id1 h1] at hf
      simp at hf
    · rw [podLoop_cont env u o pu sg pn 1 1 m0 m1 hc1] at hf ⊢
      rcases pod_stop_or_cont env 2 with ⟨id2, h2⟩ | ⟨m2, hc2⟩
      · rw [podLoop_stop env u o pu sg pn 0 2 m1 id2 h2] at hf
        simp at hf
      · rw [podLoop_cont env u o pu sg pn 0 2 m1 m2 hc2]
        simp [podLoop, apply_ite (countEv isPodInsert), apply_ite sleepDurations]

theorem podLoop_success (env : PodEnv) (u o : String) (pu sg pn last : Option String)
    (k : Nat) (id : String) (hk : k < 3) (hok : env.insert k = .ok id)
    (hmin : ∀ j, j < k → ∀ jd, env.insert j ≠ .ok jd) :
    (podLoop env u o pu sg pn 3 0 last).1 = .success none ∧
    countEv isDispatch (podLoop env u o pu sg pn 3 0 last).2 =
      (if id ≠ "" ∧ env.emailFlag = some "true" then 1 else 0) ∧
    countEv isPodInsert (podLoop env u o pu sg pn 3 0 last).2 = k + 1 := by
  have contOf : ∀ j, (∀ jd, env.insert j ≠ .ok jd) → ∃ m, podContAt env j m := by
    intro j hj
    rcases h : env.insert j with jd | _ | m | m
    · exact absurd h (hj jd)
    · exact ⟨none, .inr (.inr ⟨h, rfl⟩)⟩
    · exact ⟨m, .inl h⟩
    · exact ⟨m, .inr (.inl h)⟩
  interval_cases k
  · rw [podLoop_stop env u o pu sg pn 2 0 last id hok]
    by_cases hd : id ≠ "" ∧ env.emailFlag = some "true" <;> simp [hd]
  · obtain ⟨m0, hc0⟩ := contOf 0 (hmin 0 (by omega))
    rw [podLoop_cont env u o pu sg pn 2 0 last m0 hc0,
      podLoop_stop env u o pu sg pn 1 1 m0 id hok]
    by_cases hd : id ≠ "" ∧ env.emailFlag = some "true" <;> simp [hd]
  · obtain ⟨m0, hc0⟩ := contOf 0 (hmin 0 (by omega))
    obtain ⟨m1, hc1⟩ := contOf 1 (hmin 1 (by omega))
    rw [podLoop_cont env u o pu sg pn 2 0 last m0 hc0,
      podLoop_cont env u o pu sg pn 1 1 m0 m1 hc1,
      podLoop_stop env u o pu sg pn 0 2 m1 id hok]
    by_cases hd : id ≠ "" ∧ env.emailFlag = some "true" <;> simp [hd]

theorem updateStopStatus_eq (env : StopEnv) (o : String) (s : Status) (n : Option String)
    (uid : String) (hu : authOk env.auth uid) (hc : env.clientRaise = false) :
    updateStopStatus env o s n =
      ((updateLoop env uid o s n 3 0 none).1,
        Ev.authCheck :: (updateLoop env uid o s n 3 0 none).2) := by
  rw [authOk] at hu
  simp [updateStopStatus, hu, hc]

theorem savePOD_eq (env : PodEnv) (o : String) (pu sg nt rn : Option String)
    (uid : String) (hu : authOk env.auth uid) (hc : env.clientRaise = false) :
    savePOD env o pu sg nt rn =
      ((podLoop env uid o pu sg (podNotesOf nt rn) 3 0 none).1,
        Ev.authCheck :: (podLoop env uid o pu sg (podNotesOf nt rn) 3 0 none).2) := by
  rw [authOk] at hu
  simp [savePOD, hu, hc]

theorem updateDriverPosition_eq (env : PosEnv) (lat lng : Int) (accuracy : Option Int)
    (uid : String) (hu : authOk env.auth uid) (hc : env.clientRaise = false) :
    updateDriverPosition env lat lng accuracy =
      (match env.rpc with
       | .raise _ => .failure "An unexpected error occurred" none
       | .err _ => .failure "Failed to update position" none
       | .ok => .success none,
        [Ev.authCheck, Ev.rpcUpsertPosition uid lat lng (jsOrNullInt accuracy)]) := by
  rw [authOk] at hu
  rcases h : env.rpc with _ | m | m <;> simp [updateDriverPosition, hu, hc, h]

/-- Claim C1 (counterexample): `uploadToBlob` performs no identity check at
all — on a run with valid base64 input it reaches the blob store with
zero auth-check events and returns a plain `{ url, error: null }` value,
so the claim "every public mutating operation performs exactly one
identity check before any write" is false for `uploadToBlob`. -/
theorem c1_counterexample :
    countEv isAuthCheck (uploadToBlob envBlobOk "AAAA" "f.png" "image/png").2 = 0 ∧
    countEv isWrite (uploadToBlob envBlobOk "AAAA" "f.png" "image/png").2 = 1 ∧
    (uploadToBlob envBlobOk "AAAA" "f.png" "image/png").1 =
      ⟨some "https://blob.example/x", none⟩ :=
  ⟨rfl, rfl, rfl⟩

/-- Claim C1 (amended): `updateStopStatus`, `savePOD` and `updateDriverPosition`
each perform exactly one identity check, before any write, and on an
auth error or missing user they return an `AUTH_EXPIRED` failure with
zero writes; `uploadToBlob` performs no identity check on any input. -/
theorem c1_auth_discipline :
    (∀ (env : StopEnv) (o : String) (s : Status) (n : Option String),
      env.clientRaise = false →
      (∃ rest, (updateStopStatus env o s n).2 = Ev.authCheck :: rest ∧
        countEv isAuthCheck rest = 0) ∧
      (authFails env.auth →
        (updateStopStatus env o s n).1 =
          .failure "Your session has expired. Please log in again." (some "AUTH_EXPIRED") ∧
        countEv isWrite (updateStopStatus env o s n).2 = 0)) ∧
    (∀ (env : PodEnv) (o : String) (pu sg nt rn : Option String),
      env.clientRaise = false →
      (∃ rest, (savePOD env o pu sg nt rn).2 = Ev.authCheck :: rest ∧
        countEv isAuthCheck rest = 0) ∧
      (authFails env.auth →
        (savePOD env o pu sg nt rn).1 =
          .failure "Your session has expired. Please log in again." (some "AUTH_EXPIRED") ∧
        countEv isWrite (savePOD env o pu sg nt rn).2 = 0)) ∧
    (∀ (env : PosEnv) (lat lng : Int) (acc : Option Int),
      env.clientRaise = false →
      (∃ rest, (updateDriverPosition env lat lng acc).2 = Ev.authCheck :: rest ∧
        countEv isAuthCheck rest = 0) ∧
      (authFails env.auth →
        (updateDriverPosition env lat lng acc).1 =
          .failure "Authentication required" (some "AUTH_EXPIRED") ∧
        countEv isWrite (updateDriverPosition env lat lng acc).2 = 0)) ∧
    (∀ (env : BlobEnv) (b f ct : String),
      countEv isAuthCheck (uploadToBlob env b f ct).2 = 0) := by
  refine ⟨?_, ?_, ?_, ?_⟩
  · intro env o s n hc
    rcases ha : env.auth with ⟨user, he⟩ | _
    · rcases user with _ | uid
      · constructor
        · exact ⟨[], by simp [updateStopStatus, ha, hc], rfl⟩
        · intro _
          simp [updateStopStatus, ha, hc]
      · rcases he with _ | _
        · constructor
          · refine ⟨(updateLoop env uid o s n 3 0 none).2, ?_, ?_⟩
            · simp [updateStopStatus, ha, hc]
            · exact updateLoop_authCount env uid o s n 3 0 none
          · intro hf
            rcases hf with hf | hf <;> simp at hf
        · constructor
          · exact ⟨[], by simp [updateStopStatus, ha, hc], rfl⟩
          · intro _
            simp [updateStopStatus, ha, hc]
    · constructor
      · exact ⟨[], by simp [updateStopStatus, ha, hc], rfl⟩
      · intro hf
        simp [authFails, ha] at hf
  · intro env o pu sg nt rn hc
    rcases ha : env.auth with ⟨user, he⟩ | _
    · rcases user with _ | uid
      · constructor
        · exact ⟨[], by simp [savePOD, ha, hc], rfl⟩
        · intro _
          simp [savePOD, ha, hc]
      · rcases he with _ | _
        · constructor
          · refine ⟨(podLoop env uid o pu sg (podNotesOf nt rn) 3 0 none).2, ?_, ?_⟩
            · simp [savePOD, ha, hc]
            · exact podLoop_authCount env uid o pu sg (podNotesOf nt rn) 3 0 none
          · intro hf
            rcases hf with hf | hf <;> simp at hf
        · constructor
          · exact ⟨[], by simp [savePOD, ha, hc], rfl⟩
          · intro _
            simp [savePOD, ha, hc]
    · constructor
      · exact ⟨[], by simp [savePOD, ha, hc], rfl⟩
      · intro hf
        simp [authFails, ha] at hf
  · intro env lat lng acc hc
    rcases ha : env.auth with ⟨user, he⟩ | _
    · rcases user with _ | uid
      · constructor
        · exact ⟨[], by simp [updateDriverPosition, ha, hc], rfl⟩
        · intro _
          simp [updateDriverPosition, ha, hc]
      · rcases he with _ | _
        · constructor
          · rcases hr : env.rpc with _ | m | m <;>
              exact ⟨[Ev.rpcUpsertPosition uid lat lng (jsOrNullInt acc)],
                by simp [updateDriverPosition, ha, hc, hr], rfl⟩
          · intro hf
            rcases hf with hf | hf <;> simp at hf
        · constructor
          · exact ⟨[], by simp [updateDriverPosition, ha, hc], rfl⟩
          · intro _
            simp [updateDriverPosition, ha, hc]
    · constructor
      · exact ⟨[], by simp [updateDriverPosition, ha, hc], rfl⟩
      · intro hf
        simp [authFails, ha] at hf
  · intro env b f ct
    rw [uploadToBlob]
    split
    · rcases hfd : env.fetchDataUrl b with _ | bytes
      · simp [hfd]
      · simp [hfd, putLoop_authCount]
    · rcases hdec : jsAtob (splitArg b) with _ | bytes
      · simp [hdec]
      · simp [hdec, putLoop_authCount]

/-- Claim C1 (witness): with an identity provider reporting no user,
`updateStopStatus` returns the `AUTH_EXPIRED` failure and performs zero
writes. -/
theorem c1_auth_discipline_witness :
    envStopNoUser.clientRaise = false ∧ authFails envStopNoUser.auth ∧
    (updateStopStatus envStopNoUser "order-1" .delivered none).1 =
      .failure "Your session has expired. Please log in again." (some "AUTH_EXPIRED") ∧
    countEv isWrite (updateStopStatus envStopNoUser "order-1" .delivered none).2 = 0 := by
  have h := (c1_auth_discipline.1 envStopNoUser "order-1" .delivered none rfl).2 (Or.inr rfl)
  exact ⟨rfl, Or.inr rfl, h.1, h.2⟩

/-- Claim C2: in `updateStopStatus` and `savePOD` the wrapped store operation
is attempted at most 3 times, there are at most 2 backoff sleeps, the
k-th sleep lasts exactly `1000 * k` ms, no sleep follows the final
failed attempt (on exhaustion there are exactly 3 attempts and exactly
2 sleeps), and a first-attempt success returns immediately with one
attempt and no sleep. -/
theorem c2_retry_policy (env : StopEnv) (penv : PodEnv) (o po : String) (s : Status)
    (n pu sg nt rn : Option String) (uid puid : String)
    (hu : authOk env.auth uid) (hc : env.clientRaise = false)
    (hpu : authOk penv.auth puid) (hpc : penv.clientRaise = false) :
    (countEv isUpdateOrder (updateStopStatus env o s n).2 ≤ 3 ∧
     countEv isSleep (updateStopStatus env o s n).2 ≤ 2 ∧
     (sleepDurations (updateStopStatus env o s n).2 = [] ∨
      sleepDurations (updateStopStatus env o s n).2 = [1000 * 1] ∨
      sleepDurations (updateStopStatus env o s n).2 = [1000 * 1, 1000 * 2]) ∧
     (∀ e c, (updateStopStatus env o s n).1 = .failure e c →
        countEv isUpdateOrder (updateStopStatus env o s n).2 = 3 ∧
        sleepDurations (updateStopStatus env o s n).2 = [1000 * 1, 1000 * 2]) ∧
     (env.update 0 = .ok → (∀ m, env.audit 0 ≠ .raise m) →
        (updateStopStatus env o s n).1 = .success none ∧
        countEv isUpdateOrder (updateStopStatus env o s n).2 = 1 ∧
        sleepDurations (updateStopStatus env o s n).2 = [])) ∧
    (countEv isPodInsert (savePOD penv po pu sg nt rn).2 ≤ 3 ∧
     countEv isSleep (savePOD penv po pu sg nt rn).2 ≤ 2 ∧
     (sleepDurations (savePOD penv po pu sg nt rn).2 = [] ∨
      sleepDurations (savePOD penv po pu sg nt rn).2 = [1000 * 1] ∨
      sleepDurations (savePOD penv po pu sg nt rn).2 = [1000 * 1, 1000 * 2]) ∧
     (∀ e c, (savePOD penv po pu sg nt rn).1 = .failure e c →
        countEv isPodInsert (savePOD penv po pu sg nt rn).2 = 3 ∧
        sleepDurations (savePOD penv po pu sg nt rn).2 = [1000 * 1, 1000 * 2]) ∧
     (∀ id, penv.insert 0 = .ok id →
        (savePOD penv po pu sg nt rn).1 = .success none ∧
        countEv isPodInsert (savePOD penv po pu sg nt rn).2 = 1 ∧
        sleepDurations (savePOD penv po pu sg nt rn).2 = [])) := by
  rw [updateStopStatus_eq env o s n uid hu hc, savePOD_eq penv po pu sg nt rn puid hpu hpc]
  constructor
  · refine ⟨?_, ?_, ?_, ?_, ?_⟩
    · simpa using updateLoop_updateCount_le env uid o s n 3 0 none
    · have h := updateLoop_sleeps env uid o s n 3 0 none
      have hl := sleepDurations_length (updateLoop env uid o s n 3 0 none).2
      rcases h with h | ⟨_, h⟩ | ⟨_, h⟩ <;> rw [h] at hl <;> simp at hl ⊢ <;> omega
    · have h := updateLoop_sleeps env uid o s n 3 0 none
      rcases h with h | ⟨_, h⟩ | ⟨_, h⟩ <;> simp [h]
    · intro e c hf
      have h := updateLoop_failure env uid o s n none e c hf
      simp [h.1, h.2]
    · intro h0 ha
      rw [updateLoop_stop env uid o s n 2 0 none h0 ha]
      simp
  · refine ⟨?_, ?_, ?_, ?_, ?_⟩
    · simpa using podLoop_insertCount_le penv puid po pu sg (podNotesOf nt rn) 3 0 none
    · have h := podLoop_sleeps penv puid po pu sg (podNotesOf nt rn) 3 0 none
      have hl := sleepDurations_length (podLoop penv puid po pu sg (podNotesOf nt rn) 3 0 none).2
      rcases h with h | ⟨_, h⟩ | ⟨_, h⟩ <;> rw [h] at hl <;> simp at hl ⊢ <;> omega
    · have h := podLoop_sleeps penv puid po pu sg (podNotesOf nt rn) 3 0 none
      rcases h with h | ⟨_, h⟩ | ⟨_, h⟩ <;> simp [h]
    · intro e c hf
      have h := podLoop_failure penv puid po pu sg (podNotesOf nt rn) none e c hf
      simp [h.1, h.2]
    · intro id h0
      rw [podLoop_stop penv puid po pu sg (podNotesOf nt rn) 2 0 none id h0]
      by_cases hd : id ≠ "" ∧ penv.emailFlag = some "true" <;> simp [hd]

/-- Claim C2 (witness): with a store failing on every attempt, both actions
make exactly 3 attempts sleeping 1000 ms then 2000 ms, and with a store
succeeding at once `updateStopStatus` makes exactly 1 attempt and no
sleep. -/
theorem c2_retry_policy_witness :
    authOk envStopFailAll.auth "driver-1" ∧ authOk envPodFailAll.auth "driver-1" ∧
    countEv isUpdateOrder (updateStopStatus envStopFailAll "order-1" .delivered none).2 = 3 ∧
    sleepDurations (updateStopStatus envStopFailAll "order-1" .delivered none).2 =
      [1000 * 1, 1000 * 2] ∧
    countEv isPodInsert (savePOD envPodFailAll "order-1" none none none none).2 = 3 ∧
    sleepDurations (savePOD envPodFailAll "order-1" none none none none).2 =
      [1000 * 1, 1000 * 2] := by
  have h := c2_retry_policy envStopFailAll envPodFailAll "order-1" "order-1" .delivered
    none none none none none "driver-1" "driver-1" rfl rfl rfl rfl
  have h1 := h.1.2.2.2.1 "Failed to update order status: boom" none (by rfl)
  have h2 := h.2.2.2.2.1 "Failed to save proof of delivery: down" none (by rfl)
  exact ⟨rfl, rfl, h1.1, h1.2, h2.1, h2.2⟩

/-- Claim C3: when the primary status update of `updateStopStatus` succeeds on
some attempt (the store returning errors as values, per its interface
contract), the action returns `{ success: true }` regardless of whether
the `stop_events` audit insert returns an error, and the audit insert is
attempted exactly once. -/
theorem c3_audit_failure_tolerated (env : StopEnv) (o : String) (s : Status) (n : Option String)
    (uid : String) (hu : authOk env.auth uid) (hc : env.clientRaise = false)
    (hnr : ∀ j m, env.audit j ≠ .raise m)
    (k : Nat) (hk : k < 3) (hok : env.update k = .ok)
    (hmin : ∀ j, j < k → env.update j ≠ .ok) :
    (updateStopStatus env o s n).1 = .success none ∧
    countEv isStopEventInsert (updateStopStatus env o s n).2 = 1 := by
  rw [updateStopStatus_eq env o s n uid hu hc]
  have h := updateLoop_success env uid o s n none k hk hok hmin (hnr k)
  simp [h.1, h.2.1]

/-- Claim C3 (witness): the update succeeds at once, the audit insert returns
an error, and the action still reports success with exactly one audit
attempt. -/
theorem c3_audit_failure_tolerated_witness :
    authOk envStopOk.auth "driver-1" ∧ envStopOk.update 0 = .ok ∧
    envStopOk.audit 0 = .err (some "audit down") ∧
    (updateStopStatus envStopOk "order-1" .delivered none).1 = .success none ∧
    countEv isStopEventInsert (updateStopStatus envStopOk "order-1" .delivered none).2 = 1 := by
  have h := c3_audit_failure_tolerated envStopOk "order-1" .delivered none "driver-1" rfl rfl
    (fun j m => by simp [envStopOk]) 0 (by omega) rfl (fun j hj => absurd hj (by omega))
  exact ⟨rfl, rfl, rfl, h.1, h.2⟩

theorem savePOD_dispatch_independent (c : Bool) (a : AuthResult) (i : Nat → PodInsertResult)
    (f : Option String) (d d' : DispatchOutcome) (o : String) (pu sg nt rn : Option String) :
    savePOD ⟨c, a, i, f, d⟩ o pu sg nt rn = savePOD ⟨c, a, i, f, d'⟩ o pu sg nt rn := by
  rcases c with _ | _
  · rcases a with ⟨user, he⟩ | _
    · rcases user with _ | uid
      · rfl
      · rcases he with _ | _
        · have hp := podLoop_dispatch_eq false (AuthResult.ok (some uid) false) i f d d'
            uid o pu sg (podNotesOf nt rn) 3 0 none
          simp [savePOD, hp]
        · rfl
    · rfl
  · rfl

theorem savePOD_flag (c : Bool) (a : AuthResult) (i : Nat → PodInsertResult)
    (f f' : Option String) (d : DispatchOutcome) (o : String) (pu sg nt rn : Option String) :
    (savePOD ⟨c, a, i, f, d⟩ o pu sg nt rn).1 = (savePOD ⟨c, a, i, f', d⟩ o pu sg nt rn).1 ∧
    (savePOD ⟨c, a, i, f, d⟩ o pu sg nt rn).2.filter (fun e => !isDispatch e) =
      (savePOD ⟨c, a, i, f', d⟩ o pu sg nt rn).2.filter (fun e => !isDispatch e) := by
  rcases c with _ | _
  · rcases a with ⟨user, he⟩ | _
    · rcases user with _ | uid
      · exact ⟨rfl, rfl⟩
      · rcases he with _ | _
        · have hp := podLoop_flag_eq false (AuthResult.ok (some uid) false) i f f' d
            uid o pu sg (podNotesOf nt rn) 3 0 none
          constructor
          · simpa [savePOD] using hp.1
          · simpa [savePOD] using hp.2
        · exact ⟨rfl, rfl⟩
    · exact ⟨rfl, rfl⟩
  · exact ⟨rfl, rfl⟩

/-- Claim C4: when the `pods` insert succeeds, `savePOD` reports success and
the result (value and trace) is independent of the outcome of the
un-awaited notification dispatch; the dispatch is attempted exactly when
the feature flag equals `"true"` and a truthy id was produced; changing
the flag changes only the presence of the dispatch event, nothing else
about the result. -/
theorem c4_fire_and_forget (penv : PodEnv) (o : String) (pu sg nt rn : Option String)
    (uid : String) (hu : authOk penv.auth uid) (hc : penv.clientRaise = false)
    (k : Nat) (id : String) (hk : k < 3) (hok : penv.insert k = .ok id)
    (hmin : ∀ j, j < k → ∀ jd, penv.insert j ≠ .ok jd) :
    (savePOD penv o pu sg nt rn).1 = .success none ∧
    countEv isDispatch (savePOD penv o pu sg nt rn).2 =
      (if id ≠ "" ∧ penv.emailFlag = some "true" then 1 else 0) ∧
    (∀ (c : Bool) (a : AuthResult) (i : Nat → PodInsertResult) (f : Option String)
       (d d' : DispatchOutcome) (o' : String) (pu' sg' nt' rn' : Option String),
       savePOD ⟨c, a, i, f, d⟩ o' pu' sg' nt' rn' =
         savePOD ⟨c, a, i, f, d'⟩ o' pu' sg' nt' rn') ∧
    (∀ (c : Bool) (a : AuthResult) (i : Nat → PodInsertResult) (f f' : Option String)
       (d : DispatchOutcome) (o' : String) (pu' sg' nt' rn' : Option String),
       (savePOD ⟨c, a, i, f, d⟩ o' pu' sg' nt' rn').1 =
         (savePOD ⟨c, a, i, f', d⟩ o' pu' sg' nt' rn').1 ∧
       (savePOD ⟨c, a, i, f, d⟩ o' pu' sg' nt' rn').2.filter (fun e => !isDispatch e) =
         (savePOD ⟨c, a, i, f', d⟩ o' pu' sg' nt' rn').2.filter (fun e => !isDispatch e)) := by
  have h := podLoop_success penv uid o pu sg (podNotesOf nt rn) none k id hk hok hmin
  rw [savePOD_eq penv o pu sg nt rn uid hu hc]
  refine ⟨by simp [h.1], by simp [h.2.1], savePOD_dispatch_independent, savePOD_flag⟩

/-- Claim C4 (witness): insert succeeds at once with id `"pod-1"` and the flag
enabled — the action reports success and dispatches exactly once. -/
theorem c4_fire_and_forget_witness :
    authOk envPodOk.auth "driver-1" ∧ envPodOk.insert 0 = .ok "pod-1" ∧
    envPodOk.emailFlag = some "true" ∧
    (savePOD envPodOk "order-1" none none none none).1 = .success none ∧
    countEv isDispatch (savePOD envPodOk "order-1" none none none none).2 = 1 := by
  have h := c4_fire_and_forget envPodOk "order-1" none none none none "driver-1" rfl rfl
    0 "pod-1" (by omega) rfl (fun j hj _ => absurd hj (by omega))
  refine ⟨rfl, rfl, rfl, h.1, ?_⟩
  simpa using h.2.1

theorem isMutationOutcome_actionToJS (r : ActionResponse) :
    isMutationOutcome (actionToJS r) = true := by
  rcases r with d | ⟨e, c⟩
  · rfl
  · rfl

theorem isMutationOutcome_blobToJS (b : BlobResult) :
    isMutationOutcome (blobToJS b) = false := by
  rfl

/-- Claim C5 (counterexample): a successful `uploadToBlob` run returns
`{ url, error: null }`, which is not of the MutationOutcome shape
`{ success: true, data? } | { success: false, error, code? }` (it has no
`success` field at all), so the claim is false for
`UploadBinary`/`uploadToBlob`. -/
theorem c5_counterexample :
    isMutationOutcome (blobToJS (uploadToBlob envBlobOk "AAAA" "f.png" "image/png").1) = false ∧
    (uploadToBlob envBlobOk "AAAA" "f.png" "image/png").1 =
      ⟨some "https://blob.example/x", none⟩ :=
  ⟨rfl, rfl⟩

/-- Claim C5 (amended): `updateStopStatus`, `savePOD` and `updateDriverPosition`
return the MutationOutcome shape for every input and collaborator
behaviour; `uploadToBlob` instead always returns the
`{ url: string | null, error: string | null }` shape, never a
MutationOutcome. -/
theorem c5_outcome_shape :
    (∀ (env : StopEnv) (o : String) (s : Status) (n : Option String),
      isMutationOutcome (actionToJS (updateStopStatus env o s n).1) = true) ∧
    (∀ (env : PodEnv) (o : String) (pu sg nt rn : Option String),
      isMutationOutcome (actionToJS (savePOD env o pu sg nt rn).1) = true) ∧
    (∀ (env : PosEnv) (lat lng : Int) (acc : Option Int),
      isMutationOutcome (actionToJS (updateDriverPosition env lat lng acc).1) = true) ∧
    (∀ (env : BlobEnv) (b f ct : String),
      isMutationOutcome (blobToJS (uploadToBlob env b f ct).1) = false) :=
  ⟨fun _ _ _ _ => isMutationOutcome_actionToJS _,
   fun _ _ _ _ _ _ => isMutationOutcome_actionToJS _,
   fun _ _ _ _ => isMutationOutcome_actionToJS _,
   fun _ _ _ _ => isMutationOutcome_blobToJS _⟩

/-- Claim C6 (counterexample): with the position rpc returning an error,
`updateDriverPosition` fails after exactly one rpc attempt with zero
backoff sleeps — the upsert is not run through the retry loop. -/
theorem c6_counterexample :
    (updateDriverPosition envPosErr 45 (-73) (some 10)).1 =
      .failure "Failed to update position" none ∧
    countEv isRpcUpsert (updateDriverPosition envPosErr 45 (-73) (some 10)).2 = 1 ∧
    countEv isSleep (updateDriverPosition envPosErr 45 (-73) (some 10)).2 = 0 :=
  ⟨rfl, rfl, rfl⟩

/-- Claim C6 (amended): the driver-position upsert is attempted at most once
per call (exactly once when the auth check passes), with no retry and no
backoff sleep; an rpc error is surfaced immediately as a failure. -/
theorem c6_no_retry :
    ∀ (env : PosEnv) (lat lng : Int) (acc : Option Int),
      (countEv isRpcUpsert (updateDriverPosition env lat lng acc).2 ≤ 1 ∧
       countEv isSleep (updateDriverPosition env lat lng acc).2 = 0) ∧
      (∀ uid, authOk env.auth uid → env.clientRaise = false →
        countEv isRpcUpsert (updateDriverPosition env lat lng acc).2 = 1 ∧
        (∀ m, env.rpc = .err m →
          (updateDriverPosition env lat lng acc).1 =
            .failure "Failed to update position" none)) := by
  intro env lat lng acc
  constructor
  · by_cases hc : env.clientRaise
    · simp [updateDriverPosition, hc]
    · rcases ha : env.auth with ⟨user, he⟩ | _
      · rcases user with _ | uid
        · simp [updateDriverPosition, hc, ha]
        · rcases he with _ | _
          · rcases hr : env.rpc with _ | m | m <;> simp [updateDriverPosition, hc, ha, hr]
          · simp [updateDriverPosition, hc, ha]
      · simp [updateDriverPosition, hc, ha]
  · intro uid hu hc
    rw [updateDriverPosition_eq env lat lng acc uid hu hc]
    refine ⟨by simp, ?_⟩
    intro m hm
    simp [hm]

/-- Claim C6 (witness): with a failing rpc the attempt count is exactly 1 and
the result is the immediate failure. -/
theorem c6_no_retry_witness :
    authOk envPosErr.auth "driver-1" ∧ envPosErr.rpc = .err (some "db down") ∧
    countEv isRpcUpsert (updateDriverPosition envPosErr 45 (-73) none).2 = 1 ∧
    countEv isSleep (updateDriverPosition envPosErr 45 (-73) none).2 = 0 ∧
    (updateDriverPosition envPosErr 45 (-73) none).1 =
      .failure "Failed to update position" none := by
  have h := c6_no_retry envPosErr 45 (-73) none
  have h2 := h.2 "driver-1" rfl rfl
  exact ⟨rfl, rfl, h2.1, h.1.2, h2.2 (some "db down") rfl⟩

/-- Claim C7 (counterexample): the input `""` decodes to zero bytes, yet
`uploadToBlob` does not fail with a decode error — it invokes the blob
put on the empty payload and can return success, refuting the claimed
zero-byte `DecodeError`. -/
theorem c7_counterexample :
    jsAtob (splitArg "") = some [] ∧
    countEv isBlobPut (uploadToBlob envBlobOk "" "f.png" "image/png").2 = 1 ∧
    (uploadToBlob envBlobOk "" "f.png" "image/png").1 =
      ⟨some "https://blob.example/x", none⟩ :=
  ⟨rfl, rfl, rfl⟩

/-- Claim C7 (amended): inputs whose decode throws (invalid raw base64, or a
`data:` URL the fetch cannot decode) make `uploadToBlob` fail
immediately with the generic `{ url: null, error: "Failed to upload
file" }` outcome, with no blob put and no retry sleep (empty trace);
zero-byte decodes are not rejected. -/
theorem c7_decode_failure :
    ∀ (env : BlobEnv) (b f ct : String),
      (b.startsWith "data:" = false → jsAtob (splitArg b) = none →
        uploadToBlob env b f ct = (⟨none, some "Failed to upload file"⟩, [])) ∧
      (b.startsWith "data:" = true → env.fetchDataUrl b = none →
        uploadToBlob env b f ct = (⟨none, some "Failed to upload file"⟩, [])) := by
  intro env b f ct
  constructor
  · intro hs hd
    simp [uploadToBlob, hs, hd]
  · intro hs hd
    simp [uploadToBlob, hs, hd]

/-- Claim C7 (witness): `"!!!"` is invalid base64 — the upload fails at once
with the generic message, empty trace. -/
theorem c7_decode_failure_witness :
    "!!!".startsWith "data:" = false ∧ jsAtob (splitArg "!!!") = none ∧
    uploadToBlob envBlobOk "!!!" "f.png" "image/png" =
      (⟨none, some "Failed to upload file"⟩, []) :=
  ⟨rfl, rfl, (c7_decode_failure envBlobOk "!!!" "f.png" "image/png").1 rfl rfl⟩

/-- Claim C8: no action raises past its boundary — a throwing
`createServerClient` or a throwing auth lookup is caught at the
outermost boundary of each action and converted to that action's generic
failure value; a throwing rpc in `updateDriverPosition` and a throwing
decode in `uploadToBlob` likewise produce the generic outcome (throwing
store writes inside the retry loops are consumed by the loops, as shown
by the retry theorems; every action is a total function into its result
type). -/
theorem c8_boundary_conversion :
    (∀ (env : StopEnv) (o : String) (s : Status) (n : Option String),
      (env.clientRaise = true →
        updateStopStatus env o s n =
          (.failure "An unexpected error occurred. Please try again." none, [])) ∧
      (env.clientRaise = false → env.auth = .raise →
        updateStopStatus env o s n =
          (.failure "An unexpected error occurred. Please try again." none, [Ev.authCheck]))) ∧
    (∀ (env : PodEnv) (o : String) (pu sg nt rn : Option String),
      (env.clientRaise = true →
        savePOD env o pu sg nt rn =
          (.failure "An unexpected error occurred. Please try again." none, [])) ∧
      (env.clientRaise = false → env.auth = .raise →
        savePOD env o pu sg nt rn =
          (.failure "An unexpected error occurred. Please try again." none, [Ev.authCheck]))) ∧
    (∀ (env : PosEnv) (lat lng : Int) (acc : Option Int),
      (env.clientRaise = true →
        updateDriverPosition env lat lng acc =
          (.failure "An unexpected error occurred" none, [])) ∧
      (env.clientRaise = false → env.auth = .raise →
        updateDriverPosition env lat lng acc =
          (.failure "An unexpected error occurred" none, [Ev.authCheck])) ∧
      (∀ uid m, env.clientRaise = false → authOk env.auth uid → env.rpc = .raise m →
        (updateDriverPosition env lat lng acc).1 =
          .failure "An unexpected error occurred" none)) ∧
    (∀ (env : BlobEnv) (b f ct : String),
      (b.startsWith "data:" = false → jsAtob (splitArg b) = none →
        (uploadToBlob env b f ct).1 = ⟨none, some "Failed to upload file"⟩) ∧
      (b.startsWith "data:" = true → env.fetchDataUrl b = none →
        (uploadToBlob env b f ct).1 = ⟨none, some "Failed to upload file"⟩)) := by
  refine ⟨?_, ?_, ?_, ?_⟩
  · intro env o s n
    exact ⟨fun hc => by simp [updateStopStatus, hc],
      fun hc ha => by simp [updateStopStatus, hc, ha]⟩
  · intro env o pu sg nt rn
    exact ⟨fun hc => by simp [savePOD, hc],
      fun hc ha => by simp [savePOD, hc, ha]⟩
  · intro env lat lng acc
    refine ⟨fun hc => by simp [updateDriverPosition, hc],
      fun hc ha => by simp [updateDriverPosition, hc, ha], ?_⟩
    intro uid m hc hu hr
    rw [updateDriverPosition_eq env lat lng acc uid hu hc]
    simp [hr]
  · intro env b f ct
    exact ⟨fun hs hd => by simp [uploadToBlob, hs, hd],
      fun hs hd => by simp [uploadToBlob, hs, hd]⟩

/-- Claim C8 (witness): a throwing auth lookup in `savePOD` yields the generic
failure; a throwing client constructor in `updateStopStatus` does too. -/
theorem c8_boundary_conversion_witness :
    envStopClientRaise.clientRaise = true ∧
    updateStopStatus envStopClientRaise "order-1" .delivered none =
      (.failure "An unexpected error occurred. Please try again." none, []) ∧
    envPodAuthRaise.auth = .raise ∧
    savePOD envPodAuthRaise "order-1" none none none none =
      (.failure "An unexpected error occurred. Please try again." none, [Ev.authCheck]) := by
  refine ⟨rfl, ?_, rfl, ?_⟩
  · exact (c8_boundary_conversion.1 envStopClientRaise "order-1" .delivered none).1 rfl
  · exact (c8_boundary_conversion.2.1 envPodAuthRaise "order-1" none none none none).2 rfl rfl

/-- Claim C9 (counterexample): a supplied-but-empty recipient name is falsy in
the source's conditional, so the persisted notes equal the caller's
notes unchanged instead of the claimed
`"Recipient: " + recipientName + "\n" + notes`. -/
theorem c9_counterexample :
    podNotesOf (some "left at door") (some "") = some "left at door" ∧
    (some "left at door" : Option String) ≠
      some ("Recipient: " ++ "" ++ "\n" ++ "left at door") ∧
    podInsertNotes (savePOD envPodOk "order-1" none none
      (some "left at door") (some "")).2 = [some "left at door"] := by
  refine ⟨rfl, by decide, rfl⟩

/-- Claim C9 (amended): when a non-empty recipient name is supplied the
persisted notes equal `"Recipient: " + name + "\n" + (notes or "")`;
when the recipient name is absent or the empty string the persisted
notes equal the caller's notes unchanged (including absent); every
`pods` insert the action performs carries exactly these composed notes. -/
theorem c9_notes :
    (∀ (nt : Option String) (r : String), r ≠ "" →
      podNotesOf nt (some r) = some ("Recipient: " ++ r ++ "\n" ++ nt.getD "")) ∧
    (∀ nt, podNotesOf nt none = nt) ∧
    (∀ nt, podNotesOf nt (some "") = nt) ∧
    (∀ (env : PodEnv) (o : String) (pu sg nt rn : Option String) (x : Option String),
      x ∈ podInsertNotes (savePOD env o pu sg nt rn).2 → x = podNotesOf nt rn) ∧
    podNotesOf (some "left at door") (some "Jane Doe") =
      some "Recipient: Jane Doe\nleft at door" := by
  refine ⟨?_, fun nt => rfl, fun nt => rfl, ?_, rfl⟩
  · intro nt r hr
    simp [podNotesOf, hr]
  · intro env o pu sg nt rn x hx
    by_cases hc : env.clientRaise = true
    · simp [savePOD, hc] at hx
    · have hc' : env.clientRaise = false := by simpa using hc
      rcases ha : env.auth with ⟨user, he⟩ | _
      · rcases user with _ | uid
        · simp [savePOD, hc', ha] at hx
        · rcases he with _ | _
          · rw [savePOD_eq env o pu sg nt rn uid (by rw [authOk, ha]) hc'] at hx
            simp at hx
            exact podLoop_notes env uid o pu sg (podNotesOf nt rn) 3 0 none x hx
          · simp [savePOD, hc', ha] at hx
      · simp [savePOD, hc', ha] at hx

/-- Claim C9 (witness): the spec's own example — recipient `"Jane Doe"`, notes
`"left at door"` — composes to `"Recipient: Jane Doe\nleft at door"`. -/
theorem c9_notes_witness :
    ("Jane Doe" : String) ≠ "" ∧
    podNotesOf (some "left at door") (some "Jane Doe") =
      some ("Recipient: " ++ "Jane Doe" ++ "\n" ++ (some "left at door").getD "") :=
  ⟨by decide, c9_notes.1 (some "left at door") "Jane Doe" (by decide)⟩

/-- Claim C10: `accuracy || null` coerces an accuracy of 0 to null, so a call
with `accuracy = 0` is indistinguishable (result and trace) from a call
with the accuracy omitted, and in both cases the store's upsert receives
a null accuracy. -/
theorem c10_accuracy_zero :
    (∀ (env : PosEnv) (lat lng : Int),
      updateDriverPosition env lat lng (some 0) = updateDriverPosition env lat lng none) ∧
    (∀ (env : PosEnv) (lat lng : Int) (uid : String),
      authOk env.auth uid → env.clientRaise = false →
      rpcAccuracies (updateDriverPosition env lat lng (some 0)).2 = [none] ∧
      rpcAccuracies (updateDriverPosition env lat lng none).2 = [none]) := by
  constructor
  · intro env lat lng
    by_cases hc : env.clientRaise
    · simp [updateDriverPosition, hc]
    · rcases ha : env.auth with ⟨user, he⟩ | _
      · rcases user with _ | uid
        · simp [updateDriverPosition, hc, ha]
        · rcases he with _ | _
          · rcases hr : env.rpc with _ | m | m <;>
              simp [updateDriverPosition, hc, ha, hr, jsOrNullInt]
          · simp [updateDriverPosition, hc, ha]
      · simp [updateDriverPosition, hc, ha]
  · intro env lat lng uid hu hc
    rw [updateDriverPosition_eq env lat lng (some 0) uid hu hc,
      updateDriverPosition_eq env lat lng none uid hu hc]
    constructor <;> simp [rpcAccuracies, jsOrNullInt]

/-- Claim C10 (witness): with a valid session, both the `0` call and the
omitted call hand the store a null accuracy. -/
theorem c10_accuracy_zero_witness :
    authOk envPosOk.auth "driver-1" ∧
    rpcAccuracies (updateDriverPosition envPosOk 45 (-73) (some 0)).2 = [none] ∧
    rpcAccuracies (updateDriverPosition envPosOk 45 (-73) none).2 = [none] := by
  have h := c10_accuracy_zero.2 envPosOk 45 (-73) "driver-1" rfl rfl
  exact ⟨rfl, h.1, h.2⟩

end DriverActions
